import Mathlib

/-! Verification development for the mesh-to-STL conversion script
`src/script/inp_to_stl.py` (function `convert_to_stl_with_gmsh`).

The pure computational core of the script (source lines 33 to 166: node
harvest, element classification, face derivation, fallback boundary
extraction, node remapping, output assembly) is embedded below as
executable Lean functions over lists.  Machine reads from gmsh are
modelled as the already-harvested data (`MeshInput`, `ElemGroup`); numpy
`reshape(-1, k)` is modelled by `reshapeRows`; Python dict/`KeyError`
behaviour is modelled explicitly.  The file-level control flow of the
whole function (temporary file creation, `try`/`finally` cleanup, source
lines 14 to 176) is modelled by `convert_to_stl_with_gmsh` over abstract
success/failure outcomes of the external library calls. -/

namespace MeshToStl

/-- Tetrahedron type names recognized by the direct classification pass
(source line 51). -/
def tetraNames : List String := ["4-node tetrahedron", "Tetrahedron", "tetra"]

/-- Hexahedron type names recognized by the direct classification pass
(source line 64). -/
def hexaNames : List String := ["8-node hexahedron", "Hexahedron", "Hexahedron 8", "hexahedron"]

/-- Triangle type names recognized by the direct classification pass
(source line 89). -/
def triNames : List String := ["3-node triangle", "Triangle", "triangle"]

/-- Quadrangle type names recognized by the direct classification pass
(source line 95). -/
def quadNames : List String := ["4-node quadrangle", "Quadrangle", "quad"]

/-- A type name is recognized when it belongs to one of the four name
lists of the classification chain (source lines 51, 64, 89, 95). -/
def recognizedName (s : String) : Bool :=
  tetraNames.contains s || hexaNames.contains s || triNames.contains s || quadNames.contains s

/-- Prefix test on character lists (helper for the Python substring
operator `in` used at source line 115). -/
def charsPfx : List Char → List Char → Bool
  | [], _ => true
  | _ :: _, [] => false
  | a :: as, b :: bs => a == b && charsPfx as bs

/-- Substring test on character lists: some tail of the second list
starts with the first list. -/
def charsSub (p : List Char) : List Char → Bool
  | [] => charsPfx p []
  | b :: bs => charsPfx p (b :: bs) || charsSub p bs

/-- Python `pat in s` substring test (source line 115). -/
def strContains (s pat : String) : Bool := charsSub pat.toList s.toList

/-- Model of numpy `array.reshape(-1, k)` on a flat list (source lines
37, 53, 67, 91, 97, 116): when `k` is nonzero and divides the length,
the list of consecutive rows of width `k`; otherwise numpy raises, which
is modelled by `none`. -/
def reshapeRows {α : Type} (k : Nat) (l : List α) : Option (List (List α)) :=
  if k ≠ 0 ∧ l.length % k = 0 then
    some ((List.range (l.length / k)).map (fun i => ((l.drop (i * k)).take k)))
  else none

/-- The four triangular faces of a tetrahedron row, exactly as listed at
source lines 56 to 61. -/
def tetFaces (t : List Nat) : List (List Nat) :=
  [[t.getD 0 0, t.getD 1 0, t.getD 2 0],
   [t.getD 0 0, t.getD 1 0, t.getD 3 0],
   [t.getD 0 0, t.getD 2 0, t.getD 3 0],
   [t.getD 1 0, t.getD 2 0, t.getD 3 0]]

/-- The twelve triangles covering the six quadrilateral faces of a
hexahedron row, exactly as listed at source lines 70 to 86. -/
def hexFaces (h : List Nat) : List (List Nat) :=
  [[h.getD 0 0, h.getD 1 0, h.getD 2 0],
   [h.getD 0 0, h.getD 2 0, h.getD 3 0],
   [h.getD 4 0, h.getD 5 0, h.getD 6 0],
   [h.getD 4 0, h.getD 6 0, h.getD 7 0],
   [h.getD 0 0, h.getD 1 0, h.getD 5 0],
   [h.getD 0 0, h.getD 5 0, h.getD 4 0],
   [h.getD 1 0, h.getD 2 0, h.getD 6 0],
   [h.getD 1 0, h.getD 6 0, h.getD 5 0],
   [h.getD 2 0, h.getD 3 0, h.getD 7 0],
   [h.getD 2 0, h.getD 7 0, h.getD 6 0],
   [h.getD 3 0, h.getD 0 0, h.getD 4 0],
   [h.getD 3 0, h.getD 4 0, h.getD 7 0]]

/-- A triangle row is emitted as a single surface triangle (source
lines 92 to 93). -/
def triFaces (t : List Nat) : List (List Nat) :=
  [[t.getD 0 0, t.getD 1 0, t.getD 2 0]]

/-- A quadrangle row is split into two triangles (source lines 98 to
102). -/
def quadFaces (q : List Nat) : List (List Nat) :=
  [[q.getD 0 0, q.getD 1 0, q.getD 2 0],
   [q.getD 0 0, q.getD 2 0, q.getD 3 0]]

/-- One element group as returned by `gmsh.model.mesh.getElementsByType`
for one element type: the human-readable type name from
`getElementProperties` and the flat connectivity array. -/
structure ElemGroup where
  elem_name : String
  conn : List Nat
deriving DecidableEq

/-- Errors raised by the conversion pipeline.  `badReshape` models the
numpy reshape `ValueError`; `unknownType` models the raise at source
line 104; `noSurface` the raise at line 135; `emptyNodeTags` the
`ValueError` of Python `min`/`max` on the empty node-tag sequence at
lines 138 to 139; `noTriangles` the raise at line 166. -/
inductive ConvError where
  | badReshape : String → ConvError
  | unknownType : String → ConvError
  | noSurface : ConvError
  | emptyNodeTags : ConvError
  | noTriangles : ConvError
deriving DecidableEq

/-- Direct classification of one element group (source lines 43 to 104):
the `if`/`elif` chain over the type name, emitting faces per element, or
the `ValueError` for an unknown type name. -/
def classifyGroup (grp : ElemGroup) : Except ConvError (List (List Nat)) :=
  if tetraNames.contains grp.elem_name then
    match reshapeRows 4 grp.conn with
    | none => Except.error (ConvError.badReshape grp.elem_name)
    | some rows => Except.ok (rows.flatMap tetFaces)
  else if hexaNames.contains grp.elem_name then
    match reshapeRows 8 grp.conn with
    | none => Except.error (ConvError.badReshape grp.elem_name)
    | some rows => Except.ok (rows.flatMap hexFaces)
  else if triNames.contains grp.elem_name then
    match reshapeRows 3 grp.conn with
    | none => Except.error (ConvError.badReshape grp.elem_name)
    | some rows => Except.ok (rows.flatMap triFaces)
  else if quadNames.contains grp.elem_name then
    match reshapeRows 4 grp.conn with
    | none => Except.error (ConvError.badReshape grp.elem_name)
    | some rows => Except.ok (rows.flatMap quadFaces)
  else Except.error (ConvError.unknownType grp.elem_name)

/-- The full direct classification loop over all element groups (source
lines 43 to 104): faces of the groups are accumulated in order into
`surface_elements`; the first unknown type name aborts the loop. -/
def classifyPass : List ElemGroup → Except ConvError (List (List Nat))
  | [] => Except.ok []
  | grp :: rest =>
    match classifyGroup grp with
    | Except.error e => Except.error e
    | Except.ok fs =>
      match classifyPass rest with
      | Except.error e => Except.error e
      | Except.ok fs2 => Except.ok (fs ++ fs2)

/-- Insertion of an element into an ascending sorted list (helper for
Python `sorted`). -/
def insertSorted (x : Nat) : List Nat → List Nat
  | [] => [x]
  | y :: l => if x ≤ y then x :: y :: l else y :: insertSorted x l

/-- Python `sorted` on a small list of numbers (source lines 119 to
122): ascending insertion sort. -/
def sortFace (l : List Nat) : List Nat := l.foldr insertSorted []

/-- One toggle step of the fallback dictionary `all_faces` (source lines
124 to 128): the dictionary is an insertion-ordered association list
from canonical (sorted) face key to the key as a list; a key already
present is deleted (interior face), a new key is appended (candidate
boundary face). -/
def fallbackStep (d : List (List Nat × List Nat)) (key : List Nat) : List (List Nat × List Nat) :=
  if d.any (fun p => p.1 == key) then d.filter (fun p => !(p.1 == key))
  else d ++ [(key, key)]

/-- The four sorted faces of a tetrahedron row used by the fallback pass
(source lines 118 to 123). -/
def tetSortedFaces (t : List Nat) : List (List Nat) :=
  [sortFace [t.getD 0 0, t.getD 1 0, t.getD 2 0],
   sortFace [t.getD 0 0, t.getD 1 0, t.getD 3 0],
   sortFace [t.getD 0 0, t.getD 2 0, t.getD 3 0],
   sortFace [t.getD 1 0, t.getD 2 0, t.getD 3 0]]

/-- Substring name test of the fallback pass (source line 115): note
this differs from the exact-membership test of the direct pass. -/
def tetSubA : String := "4-node tetrahedron"

/-- Second substring probed by the fallback name test (source line
115). -/
def tetSubB : String := "Tetrahedron"

/-- Fallback processing of one element group (source lines 111 to 128):
only groups whose name has one of the two tetrahedron substrings are
processed; each tetrahedron toggles its four sorted faces in the
dictionary. -/
def fallbackGroup (d : List (List Nat × List Nat)) (grp : ElemGroup) :
    Except ConvError (List (List Nat × List Nat)) :=
  if strContains grp.elem_name tetSubA || strContains grp.elem_name tetSubB then
    match reshapeRows 4 grp.conn with
    | none => Except.error (ConvError.badReshape grp.elem_name)
    | some rows =>
      Except.ok (rows.foldl (fun acc tet => (tetSortedFaces tet).foldl fallbackStep acc) d)
  else Except.ok d

/-- The fallback dictionary accumulated over all element groups (source
lines 111 to 128). -/
def fallbackDict : List (List Nat × List Nat) → List ElemGroup →
    Except ConvError (List (List Nat × List Nat))
  | d, [] => Except.ok d
  | d, grp :: rest =>
    match fallbackGroup d grp with
    | Except.error e => Except.error e
    | Except.ok d2 => fallbackDict d2 rest

/-- The fallback boundary-extraction pass (source lines 106 to 130):
the remaining dictionary values, in insertion order. -/
def fallbackPass (groups : List ElemGroup) : Except ConvError (List (List Nat)) :=
  match fallbackDict [] groups with
  | Except.error e => Except.error e
  | Except.ok d => Except.ok (d.map Prod.snd)

/-- Face derivation: the direct classification pass, then the fallback
pass exactly when the direct pass produced no face (source lines 43 to
130). -/
def deriveFaces (groups : List ElemGroup) : Except ConvError (List (List Nat)) :=
  match classifyPass groups with
  | Except.error e => Except.error e
  | Except.ok se => if se.isEmpty then fallbackPass groups else Except.ok se

/-- The harvested mesh data returned by `gmsh.model.mesh.getNodes`
(source line 33): node tags and the flat coordinate buffer.  Coordinate
values are never inspected arithmetically by the script, so they are
carried as integers. -/
structure MeshInput where
  nodeTags : List Nat
  nodeCoords : List Int
deriving DecidableEq

/-- The surface mesh handed to the STL writer (source lines 158 to
161): the full reshaped coordinate array and the remapped triangles. -/
structure STLData where
  vertices : List (List Int)
  triangles : List (List Nat)
deriving DecidableEq

/-- Label naming the flat node-coordinate buffer in the reshape error
payload. -/
def coordsLabel : String := "node_coords"

/-- The node map `{tag: i for i, tag in enumerate(node_tags)}` (source
line 142), as a lookup function.  A Python dict comprehension lets a
later duplicate key overwrite an earlier one, so the lookup returns the
index of the last occurrence. -/
def nodeMapLookup : List Nat → Nat → Option Nat
  | [], _ => none
  | a :: l, t =>
    match nodeMapLookup l t with
    | some j => some (j + 1)
    | none => if a = t then some 0 else none

/-- Remapping of one face through the node map (source line 148): `none`
models the `KeyError` when some node tag is absent. -/
def mapFaceOpt (f : Nat → Option Nat) : List Nat → Option (List Nat)
  | [] => some []
  | a :: l =>
    match f a, mapFaceOpt f l with
    | some b, some bs => some (b :: bs)
    | _, _ => none

/-- The remapping loop over all derived faces (source lines 145 to
152): faces whose remap raises `KeyError` are skipped, the rest are kept
in order. -/
def remapFaces (tags : List Nat) (fs : List (List Nat)) : List (List Nat) :=
  fs.filterMap (mapFaceOpt (nodeMapLookup tags))

/-- The pure computational core of the conversion (source lines 33 to
166): reshape the coordinates, derive faces, validate, build the node
map, remap, and assemble the output mesh, with every raise modelled as
an error value. -/
def convertCore (m : MeshInput) (groups : List ElemGroup) : Except ConvError STLData :=
  match reshapeRows 3 m.nodeCoords with
  | none => Except.error (ConvError.badReshape coordsLabel)
  | some coords =>
    match deriveFaces groups with
    | Except.error e => Except.error e
    | Except.ok fs =>
      if fs.isEmpty then Except.error ConvError.noSurface
      else if m.nodeTags.isEmpty then Except.error ConvError.emptyNodeTags
      else if (remapFaces m.nodeTags fs).isEmpty then Except.error ConvError.noTriangles
      else Except.ok ⟨coords, remapFaces m.nodeTags fs⟩

/-- Success or failure of each external library call made by
`convert_to_stl_with_gmsh`, abstracted: `readOk` is `meshio.read` (line
19), `writeTmpOk` is `meshio.write` of the temporary file (line 21,
`tmpCreatedOnFailedWrite` says whether a failed write still created the
file), `initOk` covers `gmsh.initialize` and `setNumber` (lines 25 to
26), `openOk` is `gmsh.open` (line 30), `writeStlOk` is `meshio.write`
of the output (line 161). -/
structure ExtIO where
  readOk : Bool
  writeTmpOk : Bool
  tmpCreatedOnFailedWrite : Bool
  initOk : Bool
  openOk : Bool
  writeStlOk : Bool
deriving DecidableEq

/-- Observable outcome of one invocation: whether an exception
propagated to the caller, whether the fixed-name temporary file
`temp_conversion.msh` exists after the call returns, and whether the
output STL file was written. -/
structure RunOutcome where
  raised : Bool
  tmpAfter : Bool
  stlWritten : Bool
deriving DecidableEq

/-- File-level control flow of the whole function
`convert_to_stl_with_gmsh` (source lines 14 to 176).  The temporary
file is created at line 21, before the `try` block that begins at line
28; the `finally` block at lines 171 to 176 removes it.  Consequently a
failure in `meshio.read` happens before the file exists, a failure in
the temporary `meshio.write` or in `gmsh.initialize`/`setNumber`
happens after creation but outside the `try`, and every failure from
`gmsh.open` onward is covered by the `finally`. -/
def convert_to_stl_with_gmsh (io : ExtIO) (m : MeshInput) (groups : List ElemGroup) :
    RunOutcome :=
  if io.readOk = false then ⟨true, false, false⟩
  else if io.writeTmpOk = false then ⟨true, io.tmpCreatedOnFailedWrite, false⟩
  else if io.initOk = false then ⟨true, true, false⟩
  else if io.openOk = false then ⟨true, false, false⟩
  else
    match convertCore m groups with
    | Except.error _ => ⟨true, false, false⟩
    | Except.ok _ => if io.writeStlOk = false then ⟨true, false, false⟩ else ⟨false, false, true⟩

/-- Properties of a successful reshape: width divides the length, the
row count is the quotient, every row has width `k`, and every entry of
every row comes from the flat list. -/
lemma reshapeRows_eq_some {α : Type} {k : Nat} {l : List α} {rows : List (List α)}
    (h : reshapeRows k l = some rows) :
    k ≠ 0 ∧ l.length % k = 0 ∧ rows.length = l.length / k ∧
      (∀ r ∈ rows, r.length = k) ∧ (∀ r ∈ rows, ∀ x ∈ r, x ∈ l) := by
  unfold reshapeRows at h
  split at h
  · rename_i hc
    obtain ⟨hk, hm⟩ := hc
    injection h with h
    subst h
    refine ⟨hk, hm, by simp, ?_, ?_⟩
    · intro r hr
      simp only [List.mem_map, List.mem_range] at hr
      obtain ⟨i, hi, rfl⟩ := hr
      have hik : i * k + k ≤ l.length := by
        have hdvd : k ∣ l.length := Nat.dvd_of_mod_eq_zero hm
        calc i * k + k = (i + 1) * k := by ring
        _ ≤ (l.length / k) * k := Nat.mul_le_mul_right k hi
        _ = l.length := Nat.div_mul_cancel hdvd
      simp only [List.length_take, List.length_drop]
      omega
    · intro r hr x hx
      simp only [List.mem_map, List.mem_range] at hr
      obtain ⟨i, _, rfl⟩ := hr
      exact List.mem_of_mem_drop (List.mem_of_mem_take hx)
  · exact absurd h (by simp)

/-- Explicit form of a successful reshape. -/
lemma reshapeRows_pos {α : Type} {k : Nat} (hk : k ≠ 0) {l : List α} (hm : l.length % k = 0) :
    reshapeRows k l =
      some ((List.range (l.length / k)).map (fun i => ((l.drop (i * k)).take k))) := by
  unfold reshapeRows
  rw [if_pos ⟨hk, hm⟩]

/-- A list whose length is exactly the width reshapes to a single row. -/
lemma reshapeRows_single {α : Type} {k : Nat} (hk : k ≠ 0) {l : List α} (hl : l.length = k) :
    reshapeRows k l = some [l] := by
  have hml : l.length % k = 0 := by rw [hl]; exact Nat.mod_self k
  rw [reshapeRows_pos hk hml, hl, Nat.div_self (Nat.pos_of_ne_zero hk)]
  simp [List.range_succ, List.take_of_length_le (le_of_eq hl)]

/-- Peeling one full row off the front of a reshape. -/
lemma reshapeRows_append {α : Type} {k : Nat} (hk : k ≠ 0) {a : List α} (ha : a.length = k)
    (l : List α) :
    reshapeRows k (a ++ l) = (reshapeRows k l).map (fun rows => a :: rows) := by
  have hlen : (a ++ l).length = k + l.length := by simp [ha]
  by_cases hm : l.length % k = 0
  · have hm2 : (a ++ l).length % k = 0 := by rw [hlen, Nat.add_mod_left]; exact hm
    rw [reshapeRows_pos hk hm2, reshapeRows_pos hk hm]
    simp only [Option.map_some']
    congr 1
    rw [hlen, Nat.add_comm k l.length, Nat.add_div_right _ (Nat.pos_of_ne_zero hk),
      List.range_succ_eq_map]
    simp only [List.map_cons, List.map_map]
    congr 1
    · simp [List.take_left' ha]
    · apply List.map_congr_left
      intro i _
      simp only [Function.comp_apply, Nat.succ_eq_add_one]
      have hidx : (i + 1) * k = a.length + i * k := by rw [ha]; ring
      rw [hidx, List.drop_append]
  · have hm2 : ¬ (a ++ l).length % k = 0 := by rw [hlen, Nat.add_mod_left]; exact hm
    unfold reshapeRows
    rw [if_neg (by intro hc; exact hm2 hc.2), if_neg (by intro hc; exact hm hc.2)]
    rfl

/-- Two full rows reshape to the two-row list. -/
lemma reshapeRows_pair {α : Type} {k : Nat} (hk : k ≠ 0) {a b : List α}
    (ha : a.length = k) (hb : b.length = k) :
    reshapeRows k (a ++ b) = some [a, b] := by
  rw [reshapeRows_append hk ha b, reshapeRows_single hk hb]
  rfl

/-- Length of a flat map whose pieces all have the same length. -/
lemma length_flatMap_const {α β : Type} (rows : List α) (f : α → List β) (c : Nat)
    (h : ∀ r, (f r).length = c) : (rows.flatMap f).length = c * rows.length := by
  induction rows with
  | nil => simp
  | cons r rest ih =>
    rw [List.flatMap_cons, List.length_append, h, ih, List.length_cons]
    ring

/-- Every node index produced by the node map is a valid position in the
tag list holding the looked-up tag. -/
lemma nodeMapLookup_sound : ∀ (l : List Nat) (t i : Nat),
    nodeMapLookup l t = some i → i < l.length ∧ t ∈ l := by
  intro l
  induction l with
  | nil => intro t i h; simp [nodeMapLookup] at h
  | cons a l ih =>
    intro t i h
    cases hl : nodeMapLookup l t with
    | some j =>
      simp only [nodeMapLookup, hl] at h
      injection h with h
      subst h
      obtain ⟨h1, h2⟩ := ih t j hl
      exact ⟨by simp only [List.length_cons]; omega, List.mem_cons_of_mem a h2⟩
    | none =>
      simp only [nodeMapLookup, hl] at h
      split at h
      · rename_i heq
        injection h with h
        subst h
        subst heq
        exact ⟨by simp, List.mem_cons_self a l⟩
      · exact absurd h (by simp)

/-- The node map lookup succeeds on every tag present in the list. -/
lemma nodeMapLookup_isSome_of_mem : ∀ (l : List Nat) (t : Nat),
    t ∈ l → (nodeMapLookup l t).isSome = true := by
  intro l
  induction l with
  | nil => simp
  | cons a l ih =>
    intro t ht
    cases hl : nodeMapLookup l t with
    | some j => simp [nodeMapLookup, hl]
    | none =>
      rcases List.mem_cons.mp ht with h | h
      · subst h; simp [nodeMapLookup, hl]
      · have := ih t h; rw [hl] at this; simp at this

/-- Every entry of a successfully remapped face is the image of some tag
of the original face. -/
lemma mapFaceOpt_mem_ex (f : Nat → Option Nat) :
    ∀ (l out : List Nat), mapFaceOpt f l = some out →
      ∀ y ∈ out, ∃ x, x ∈ l ∧ f x = some y := by
  intro l
  induction l with
  | nil =>
    intro out h y hy
    simp only [mapFaceOpt] at h
    injection h with h
    subst h
    simp at hy
  | cons a l ih =>
    intro out h y hy
    cases hfa : f a with
    | none => simp [mapFaceOpt, hfa] at h
    | some b =>
      cases hml : mapFaceOpt f l with
      | none => simp [mapFaceOpt, hfa, hml] at h
      | some bs =>
        simp only [mapFaceOpt, hfa, hml] at h
        injection h with h
        subst h
        rcases List.mem_cons.mp hy with h | h
        · exact ⟨a, List.mem_cons_self a l, by rw [hfa, h]⟩
        · obtain ⟨x, hx1, hx2⟩ := ih bs hml y h
          exact ⟨x, List.mem_cons_of_mem a hx1, hx2⟩

/-- Remapping a face succeeds when every tag of the face is mapped. -/
lemma mapFaceOpt_isSome (f : Nat → Option Nat) :
    ∀ (l : List Nat), (∀ x ∈ l, (f x).isSome = true) →
      (mapFaceOpt f l).isSome = true := by
  intro l
  induction l with
  | nil => intro _; simp [mapFaceOpt]
  | cons a l ih =>
    intro h
    obtain ⟨b, hb⟩ := Option.isSome_iff_exists.mp (h a (List.mem_cons_self a l))
    obtain ⟨bs, hbs⟩ := Option.isSome_iff_exists.mp (ih (fun x hx => h x (List.mem_cons_of_mem a hx)))
    simp [mapFaceOpt, hb, hbs]

/-- Remapping keeps every face whose tags are all mapped (one output
triangle per such face). -/
lemma remapFaces_length_eq (tags : List Nat) :
    ∀ (fs : List (List Nat)),
      (∀ f ∈ fs, (mapFaceOpt (nodeMapLookup tags) f).isSome = true) →
      (remapFaces tags fs).length = fs.length := by
  intro fs
  induction fs with
  | nil => intro _; rfl
  | cons f fs ih =>
    intro h
    obtain ⟨tri, htri⟩ :=
      Option.isSome_iff_exists.mp (h f (List.mem_cons_self f fs))
    have hrest := ih (fun g hg => h g (List.mem_cons_of_mem f hg))
    simp only [remapFaces, List.filterMap_cons, htri, List.length_cons] at hrest ⊢
    omega

/-- Remapping strictly shrinks the face list when some face fails to
remap: that face is dropped. -/
lemma remapFaces_length_lt (tags : List Nat) :
    ∀ (fs : List (List Nat)) (bad : List Nat), bad ∈ fs →
      mapFaceOpt (nodeMapLookup tags) bad = none →
      (remapFaces tags fs).length < fs.length := by
  intro fs
  induction fs with
  | nil => simp
  | cons f fs ih =>
    intro bad hmem hbad
    rcases List.mem_cons.mp hmem with h | h
    · subst h
      have hle := List.length_filterMap_le (mapFaceOpt (nodeMapLookup tags)) fs
      simp only [remapFaces, List.filterMap_cons, hbad, List.length_cons]
      omega
    · have hlt := ih bad h hbad
      cases hf : mapFaceOpt (nodeMapLookup tags) f with
      | none =>
        simp only [remapFaces, List.filterMap_cons, hf, List.length_cons] at hlt ⊢
        omega
      | some tri =>
        simp only [remapFaces, List.filterMap_cons, hf, List.length_cons] at hlt ⊢
        omega

/-- Direct classification of a group with a recognized tetrahedron name
and a well-formed connectivity. -/
lemma classifyGroup_tetra {grp : ElemGroup} (hn : tetraNames.contains grp.elem_name = true)
    {rows : List (List Nat)} (hr : reshapeRows 4 grp.conn = some rows) :
    classifyGroup grp = Except.ok (rows.flatMap tetFaces) := by
  have hn' : grp.elem_name ∈ tetraNames := by simpa using hn
  simp [classifyGroup, hn', hr]

/-- Direct classification of a group with a recognized hexahedron name
and a well-formed connectivity. -/
lemma classifyGroup_hexa {grp : ElemGroup} (hn : hexaNames.contains grp.elem_name = true)
    (ht : tetraNames.contains grp.elem_name = false)
    {rows : List (List Nat)} (hr : reshapeRows 8 grp.conn = some rows) :
    classifyGroup grp = Except.ok (rows.flatMap hexFaces) := by
  have hn' : grp.elem_name ∈ hexaNames := by simpa using hn
  have ht' : grp.elem_name ∉ tetraNames := by simpa using ht
  simp [classifyGroup, hn', ht', hr]

/-- A group whose type name is recognized by none of the four name
lists makes the classification raise the unknown-type error (source
line 104). -/
lemma classifyGroup_unknown {grp : ElemGroup} (h : recognizedName grp.elem_name = false) :
    classifyGroup grp = Except.error (ConvError.unknownType grp.elem_name) := by
  unfold recognizedName at h
  simp only [Bool.or_eq_false_iff] at h
  obtain ⟨⟨⟨h1, h2⟩, h3⟩, h4⟩ := h
  have h1' : grp.elem_name ∉ tetraNames := by simpa using h1
  have h2' : grp.elem_name ∉ hexaNames := by simpa using h2
  have h3' : grp.elem_name ∉ triNames := by simpa using h3
  have h4' : grp.elem_name ∉ quadNames := by simpa using h4
  simp [classifyGroup, h1', h2', h3', h4']

/-- Classification step of the loop: both sub-results succeed. -/
lemma classifyPass_cons (grp : ElemGroup) (rest : List ElemGroup)
    {fs fs2 : List (List Nat)}
    (h1 : classifyGroup grp = Except.ok fs) (h2 : classifyPass rest = Except.ok fs2) :
    classifyPass (grp :: rest) = Except.ok (fs ++ fs2) := by
  simp [classifyPass, h1, h2]

/-- The fallback is not consulted when direct classification produced at
least one face (source line 106). -/
lemma deriveFaces_direct {groups : List ElemGroup} {fs : List (List Nat)}
    (h : classifyPass groups = Except.ok fs) (hne : fs.isEmpty = false) :
    deriveFaces groups = Except.ok fs := by
  simp [deriveFaces, h, hne]

/-- Inversion of a successful conversion: the coordinates reshaped, the
faces were derived and nonempty, nodes were present, and the output is
the full coordinate array with the remapped faces. -/
lemma convertCore_ok_inv {m : MeshInput} {groups : List ElemGroup} {out : STLData}
    (h : convertCore m groups = Except.ok out) :
    ∃ coords fs, reshapeRows 3 m.nodeCoords = some coords ∧
      deriveFaces groups = Except.ok fs ∧ fs ≠ [] ∧ m.nodeTags ≠ [] ∧
      remapFaces m.nodeTags fs ≠ [] ∧
      out = ⟨coords, remapFaces m.nodeTags fs⟩ := by
  unfold convertCore at h
  cases hre : reshapeRows 3 m.nodeCoords with
  | none => rw [hre] at h; exact absurd h (by simp)
  | some coords =>
    rw [hre] at h
    dsimp only at h
    cases hd : deriveFaces groups with
    | error e => rw [hd] at h; exact absurd h (by simp)
    | ok fs =>
      rw [hd] at h
      dsimp only at h
      by_cases h1 : fs.isEmpty
      · rw [if_pos h1] at h; exact absurd h (by simp)
      · rw [if_neg h1] at h
        by_cases h2 : m.nodeTags.isEmpty
        · rw [if_pos h2] at h; exact absurd h (by simp)
        · rw [if_neg h2] at h
          by_cases h3 : (remapFaces m.nodeTags fs).isEmpty
          · rw [if_pos h3] at h; exact absurd h (by simp)
          · rw [if_neg h3] at h
            injection h with h
            refine ⟨coords, fs, rfl, rfl, ?_, ?_, ?_, h.symm⟩
            · simpa using h1
            · simpa using h2
            · simpa using h3

/-- Evaluation of a successful conversion from its ingredients. -/
lemma convertCore_ok_intro {m : MeshInput} {groups : List ElemGroup}
    {coords : List (List Int)} {fs : List (List Nat)}
    (hre : reshapeRows 3 m.nodeCoords = some coords)
    (hd : deriveFaces groups = Except.ok fs)
    (h1 : fs ≠ []) (h2 : m.nodeTags ≠ []) (h3 : remapFaces m.nodeTags fs ≠ []) :
    convertCore m groups = Except.ok ⟨coords, remapFaces m.nodeTags fs⟩ := by
  unfold convertCore
  rw [hre, hd]
  dsimp only
  rw [if_neg (by simpa using h1), if_neg (by simpa using h2), if_neg (by simpa using h3)]

/-- Number of tetrahedra in a list of element groups: rows of width 4
in each connectivity. -/
def tetCount (groups : List ElemGroup) : Nat :=
  (groups.map (fun grp => grp.conn.length / 4)).sum

/-- Number of hexahedra in a list of element groups: rows of width 8 in
each connectivity. -/
def hexCount (groups : List ElemGroup) : Nat :=
  (groups.map (fun grp => grp.conn.length / 8)).sum

/-- Direct classification of a purely tetrahedral mesh: it succeeds and
emits four faces per tetrahedron. -/
lemma classifyPass_tetra_all : ∀ (groups : List ElemGroup),
    (∀ grp ∈ groups, tetraNames.contains grp.elem_name = true ∧ grp.conn.length % 4 = 0) →
    ∃ fs, classifyPass groups = Except.ok fs ∧ fs.length = 4 * tetCount groups := by
  intro groups
  induction groups with
  | nil => intro _; exact ⟨[], rfl, by simp [tetCount]⟩
  | cons grp rest ih =>
    intro h
    obtain ⟨hn, hm⟩ := h grp (List.mem_cons_self grp rest)
    obtain ⟨fs2, hfs2, hlen2⟩ := ih (fun g hg => h g (List.mem_cons_of_mem grp hg))
    have hr := reshapeRows_pos (by decide) hm
    have hcg := classifyGroup_tetra hn hr
    refine ⟨_, classifyPass_cons grp rest hcg hfs2, ?_⟩
    rw [List.length_append, hlen2, length_flatMap_const _ tetFaces 4 (fun r => rfl)]
    simp only [List.length_map, List.length_range]
    simp only [tetCount, List.map_cons, List.sum_cons]
    ring

/-- Direct classification of a purely hexahedral mesh: it succeeds and
emits twelve triangles per hexahedron. -/
lemma classifyPass_hexa_all : ∀ (groups : List ElemGroup),
    (∀ grp ∈ groups, hexaNames.contains grp.elem_name = true ∧
      tetraNames.contains grp.elem_name = false ∧ grp.conn.length % 8 = 0) →
    ∃ fs, classifyPass groups = Except.ok fs ∧ fs.length = 12 * hexCount groups := by
  intro groups
  induction groups with
  | nil => intro _; exact ⟨[], rfl, by simp [hexCount]⟩
  | cons grp rest ih =>
    intro h
    obtain ⟨hn, ht, hm⟩ := h grp (List.mem_cons_self grp rest)
    obtain ⟨fs2, hfs2, hlen2⟩ := ih (fun g hg => h g (List.mem_cons_of_mem grp hg))
    have hr := reshapeRows_pos (by decide) hm
    have hcg := classifyGroup_hexa hn ht hr
    refine ⟨_, classifyPass_cons grp rest hcg hfs2, ?_⟩
    rw [List.length_append, hlen2, length_flatMap_const _ hexFaces 12 (fun r => rfl)]
    simp only [List.length_map, List.length_range]
    simp only [hexCount, List.map_cons, List.sum_cons]
    ring

/-- When every recognized group classifies successfully and some group
has an unrecognized name, the classification loop stops with the
unknown-type error of the first such group. -/
lemma classifyPass_unknown_err : ∀ (groups : List ElemGroup),
    (∀ grp ∈ groups, recognizedName grp.elem_name = true →
      ∃ fs, classifyGroup grp = Except.ok fs) →
    (∃ grp, grp ∈ groups ∧ recognizedName grp.elem_name = false) →
    ∃ nm, recognizedName nm = false ∧
      classifyPass groups = Except.error (ConvError.unknownType nm) := by
  intro groups
  induction groups with
  | nil =>
    intro _ hbad
    obtain ⟨grp, hmem, _⟩ := hbad
    simp at hmem
  | cons grp rest ih =>
    intro hok hbad
    by_cases hg : recognizedName grp.elem_name = true
    · obtain ⟨fs, hfs⟩ := hok grp (List.mem_cons_self grp rest) hg
      have hbad' : ∃ g, g ∈ rest ∧ recognizedName g.elem_name = false := by
        obtain ⟨g, hmem, hrec⟩ := hbad
        rcases List.mem_cons.mp hmem with h | h
        · subst h; rw [hg] at hrec; exact absurd hrec (by simp)
        · exact ⟨g, h, hrec⟩
      obtain ⟨nm, hnm, hcp⟩ := ih (fun g hgm => hok g (List.mem_cons_of_mem grp hgm)) hbad'
      exact ⟨nm, hnm, by simp [classifyPass, hfs, hcp]⟩
    · have hg' : recognizedName grp.elem_name = false := by
        cases hx : recognizedName grp.elem_name
        · rfl
        · exact absurd hx hg
      exact ⟨grp.elem_name, hg', by simp [classifyPass, classifyGroup_unknown hg']⟩

/-- Every node of every triangle emitted for a full hexahedron row is a
node of that row. -/
lemma hexFaces_mem {r : List Nat} (hr : r.length = 8) :
    ∀ face ∈ hexFaces r, ∀ x ∈ face, x ∈ r := by
  have hg : ∀ i, i < 8 → r.getD i 0 ∈ r := by
    intro i hi
    have hilt : i < r.length := by omega
    rw [List.getD_eq_getElem r 0 hilt]
    exact List.getElem_mem hilt
  intro face hface x hx
  simp only [hexFaces, List.mem_cons, List.not_mem_nil, or_false] at hface
  rcases hface with rfl|rfl|rfl|rfl|rfl|rfl|rfl|rfl|rfl|rfl|rfl|rfl <;>
    (simp only [List.mem_cons, List.not_mem_nil, or_false] at hx ;
      rcases hx with rfl|rfl|rfl <;> exact hg _ (by omega))

/-- Concrete tetrahedron type name used in witnesses. -/
def tetNameW : String := "Tetrahedron"

/-- Concrete hexahedron type name used in witnesses. -/
def hexNameW : String := "Hexahedron"

/-- Claim C7: every tetrahedral element of the direct classification
pass emits exactly 4 triangular faces with node-index sets 012, 013,
023, 123 of its 4 nodes, so a purely tetrahedral mesh yields 4 times as
many direct-path triangles as tetrahedra. -/
theorem tet_direct_pass_count (groups : List ElemGroup)
    (h : ∀ grp ∈ groups, tetraNames.contains grp.elem_name = true ∧ grp.conn.length % 4 = 0) :
    (∃ fs, classifyPass groups = Except.ok fs ∧ fs.length = 4 * tetCount groups) ∧
      ∀ a b c d : Nat, tetFaces [a, b, c, d] = [[a, b, c], [a, b, d], [a, c, d], [b, c, d]] :=
  ⟨classifyPass_tetra_all groups h, fun _ _ _ _ => rfl⟩

/-- Witness for C7 at a one-tetrahedron mesh. -/
theorem tet_direct_pass_count_witness :
    (∃ fs, classifyPass [⟨"Tetrahedron", [1, 2, 3, 4]⟩] = Except.ok fs ∧
        fs.length = 4 * tetCount [⟨"Tetrahedron", [1, 2, 3, 4]⟩]) ∧
      ∀ a b c d : Nat, tetFaces [a, b, c, d] = [[a, b, c], [a, b, d], [a, c, d], [b, c, d]] :=
  tet_direct_pass_count [⟨"Tetrahedron", [1, 2, 3, 4]⟩] (by decide)

/-- Claim C8: every hexahedral element of the direct classification
pass emits exactly 12 triangles, covering its 6 quadrilateral faces by
the fixed corner-pairing scheme of source lines 70 to 86, so a purely
hexahedral mesh yields 12 times as many direct-path triangles as
hexahedra. -/
theorem hexa_direct_pass_count (groups : List ElemGroup)
    (h : ∀ grp ∈ groups, hexaNames.contains grp.elem_name = true ∧
      tetraNames.contains grp.elem_name = false ∧ grp.conn.length % 8 = 0) :
    (∃ fs, classifyPass groups = Except.ok fs ∧ fs.length = 12 * hexCount groups) ∧
      ∀ n0 n1 n2 n3 n4 n5 n6 n7 : Nat,
        hexFaces [n0, n1, n2, n3, n4, n5, n6, n7] =
          [[n0, n1, n2], [n0, n2, n3], [n4, n5, n6], [n4, n6, n7],
           [n0, n1, n5], [n0, n5, n4], [n1, n2, n6], [n1, n6, n5],
           [n2, n3, n7], [n2, n7, n6], [n3, n0, n4], [n3, n4, n7]] :=
  ⟨classifyPass_hexa_all groups h, fun _ _ _ _ _ _ _ _ => rfl⟩

/-- Witness for C8 at a one-hexahedron mesh. -/
theorem hexa_direct_pass_count_witness :
    (∃ fs, classifyPass [⟨"Hexahedron", [1, 2, 3, 4, 5, 6, 7, 8]⟩] = Except.ok fs ∧
        fs.length = 12 * hexCount [⟨"Hexahedron", [1, 2, 3, 4, 5, 6, 7, 8]⟩]) ∧
      ∀ n0 n1 n2 n3 n4 n5 n6 n7 : Nat,
        hexFaces [n0, n1, n2, n3, n4, n5, n6, n7] =
          [[n0, n1, n2], [n0, n2, n3], [n4, n5, n6], [n4, n6, n7],
           [n0, n1, n5], [n0, n5, n4], [n1, n2, n6], [n1, n6, n5],
           [n2, n3, n7], [n2, n7, n6], [n3, n0, n4], [n3, n4, n7]] :=
  hexa_direct_pass_count [⟨"Hexahedron", [1, 2, 3, 4, 5, 6, 7, 8]⟩] (by decide)

/-- Claim C5: a mesh containing an element group whose type name is
outside the recognized set makes the conversion fail with the
unknown-element-type error, and no output is produced. -/
theorem unknown_elem_type_fatal (m : MeshInput) (groups : List ElemGroup)
    (hco : (reshapeRows 3 m.nodeCoords).isSome = true)
    (hok : ∀ grp ∈ groups, recognizedName grp.elem_name = true →
      ∃ fs, classifyGroup grp = Except.ok fs)
    (hbad : ∃ grp, grp ∈ groups ∧ recognizedName grp.elem_name = false) :
    ∃ nm, recognizedName nm = false ∧
      convertCore m groups = Except.error (ConvError.unknownType nm) ∧
      ∀ out, convertCore m groups ≠ Except.ok out := by
  obtain ⟨nm, hnm, hcp⟩ := classifyPass_unknown_err groups hok hbad
  obtain ⟨coords, hc⟩ := Option.isSome_iff_exists.mp hco
  have hderiv : deriveFaces groups = Except.error (ConvError.unknownType nm) := by
    simp [deriveFaces, hcp]
  have hcc : convertCore m groups = Except.error (ConvError.unknownType nm) := by
    unfold convertCore
    rw [hc]
    dsimp only
    rw [hderiv]
  exact ⟨nm, hnm, hcc, fun out hout => by rw [hcc] at hout; exact Except.noConfusion hout⟩

/-- Witness for C5 at a mesh whose single group is a 5-node pyramid. -/
theorem unknown_elem_type_fatal_witness :
    ∃ nm, recognizedName nm = false ∧
      convertCore ⟨[1, 2, 3], List.replicate 9 0⟩ [⟨"5-node pyramid", [1, 2, 3, 4, 5]⟩] =
        Except.error (ConvError.unknownType nm) ∧
      ∀ out, convertCore ⟨[1, 2, 3], List.replicate 9 0⟩ [⟨"5-node pyramid", [1, 2, 3, 4, 5]⟩] ≠
        Except.ok out :=
  unknown_elem_type_fatal ⟨[1, 2, 3], List.replicate 9 0⟩ [⟨"5-node pyramid", [1, 2, 3, 4, 5]⟩]
    (by decide)
    (by intro grp hg hrec
        simp only [List.mem_cons, List.not_mem_nil, or_false] at hg
        subst hg
        exact absurd hrec (by decide))
    ⟨⟨"5-node pyramid", [1, 2, 3, 4, 5]⟩, List.mem_cons_self _ _, by decide⟩

/-- Claim C9: every node index of every output triangle is a valid
dense index, namely the index the node map assigns to some node tag
present in the harvested tag list. -/
theorem triangle_indices_valid (m : MeshInput) (groups : List ElemGroup) (out : STLData)
    (h : convertCore m groups = Except.ok out) :
    ∀ tri ∈ out.triangles, ∀ i ∈ tri,
      i < m.nodeTags.length ∧ ∃ t, t ∈ m.nodeTags ∧ nodeMapLookup m.nodeTags t = some i := by
  obtain ⟨coords, fs, hre, hd, hfs, hnt, htris, hout⟩ := convertCore_ok_inv h
  subst hout
  intro tri htri i hi
  dsimp only at htri
  simp only [remapFaces] at htri
  rw [List.mem_filterMap] at htri
  obtain ⟨face, hface, hmap⟩ := htri
  obtain ⟨t, ht1, ht2⟩ := mapFaceOpt_mem_ex _ face tri hmap i hi
  obtain ⟨hlt, hmem⟩ := nodeMapLookup_sound m.nodeTags t i ht2
  exact ⟨hlt, t, hmem, ht2⟩

/-- Witness for C9 at a four-node mesh with one triangle element,
specialized to index 2 of its only output triangle. -/
theorem triangle_indices_valid_witness :
    2 < ([1, 2, 3, 4] : List Nat).length ∧
      ∃ t, t ∈ ([1, 2, 3, 4] : List Nat) ∧ nodeMapLookup [1, 2, 3, 4] t = some 2 :=
  triangle_indices_valid ⟨[1, 2, 3, 4], [0, 0, 0, 1, 0, 0, 0, 1, 0, 0, 0, 1]⟩
    [⟨"Triangle", [1, 2, 3]⟩]
    ⟨[[0, 0, 0], [1, 0, 0], [0, 1, 0], [0, 0, 1]], [[0, 1, 2]]⟩ rfl
    [0, 1, 2] (by decide) 2 (by decide)

/-- Claim C10: on success the output vertex array is exactly the full
reshaped harvested coordinate array, including nodes referenced by no
output triangle. -/
theorem output_vertices_full_node_array (m : MeshInput) (groups : List ElemGroup)
    (out : STLData) (coords : List (List Int))
    (hre : reshapeRows 3 m.nodeCoords = some coords)
    (h : convertCore m groups = Except.ok out) :
    out.vertices = coords := by
  obtain ⟨coords', fs, hre', hd, hfs, hnt, htris, hout⟩ := convertCore_ok_inv h
  rw [hre] at hre'
  injection hre' with hc
  subst hout
  exact hc.symm

/-- Witness for C10 at a four-node mesh whose fourth node is unused. -/
theorem output_vertices_full_node_array_witness :
    (STLData.mk [[0, 0, 0], [1, 0, 0], [0, 1, 0], [0, 0, 1]] [[0, 1, 2]]).vertices =
      [[0, 0, 0], [1, 0, 0], [0, 1, 0], [0, 0, 1]] :=
  output_vertices_full_node_array ⟨[1, 2, 3, 4], [0, 0, 0, 1, 0, 0, 0, 1, 0, 0, 0, 1]⟩
    [⟨"Triangle", [1, 2, 3]⟩]
    ⟨[[0, 0, 0], [1, 0, 0], [0, 1, 0], [0, 0, 1]], [[0, 1, 2]]⟩
    [[0, 0, 0], [1, 0, 0], [0, 1, 0], [0, 0, 1]] rfl rfl

/-- Claim C4: when face derivation yields no face, or remapping leaves
no valid triangle, the conversion fails with an error and never returns
an output mesh. -/
theorem no_faces_fatal (m : MeshInput) (groups : List ElemGroup) (fs : List (List Nat))
    (hd : deriveFaces groups = Except.ok fs)
    (h : fs = [] ∨ remapFaces m.nodeTags fs = []) :
    (∃ e, convertCore m groups = Except.error e) ∧
      ∀ out, convertCore m groups ≠ Except.ok out := by
  have herr : ∃ e, convertCore m groups = Except.error e := by
    unfold convertCore
    cases hre : reshapeRows 3 m.nodeCoords with
    | none => exact ⟨_, rfl⟩
    | some coords =>
      rw [hd]
      dsimp only
      by_cases h1 : fs.isEmpty
      · rw [if_pos h1]; exact ⟨_, rfl⟩
      · rw [if_neg h1]
        by_cases h2 : m.nodeTags.isEmpty
        · rw [if_pos h2]; exact ⟨_, rfl⟩
        · rw [if_neg h2]
          have h3 : (remapFaces m.nodeTags fs).isEmpty := by
            rcases h with h | h
            · exact absurd (by simp [h]) h1
            · simp [h]
          rw [if_pos h3]
          exact ⟨_, rfl⟩
  obtain ⟨e, he⟩ := herr
  exact ⟨⟨e, he⟩, fun out hout => by rw [he] at hout; exact Except.noConfusion hout⟩

/-- Witness for C4 at the empty mesh. -/
theorem no_faces_fatal_witness :
    (∃ e, convertCore ⟨[], []⟩ [] = Except.error e) ∧
      ∀ out, convertCore ⟨[], []⟩ [] ≠ Except.ok out :=
  no_faces_fatal ⟨[], []⟩ [] [] rfl (Or.inl rfl)

/-- Counterexample to C6 as stated: a mesh whose only derived face
references the absent tag 9; the face is indeed skipped, but then the
conversion as a whole fails with the empty-triangle error, so a
dangling face does not always leave the conversion successful. -/
theorem dangling_only_face_fatal_cex :
    deriveFaces [⟨"Triangle", [1, 2, 9]⟩] = Except.ok [[1, 2, 9]] ∧
      nodeMapLookup [1, 2, 3] 9 = none ∧
      convertCore ⟨[1, 2, 3], List.replicate 9 0⟩ [⟨"Triangle", [1, 2, 9]⟩] =
        Except.error ConvError.noTriangles :=
  ⟨rfl, rfl, rfl⟩

/-- Claim C6 (amended): a derived face referencing an absent node tag
does not make the remapping step fail: that face is dropped (the output
is strictly shorter than the face list) while every fully-mappable face
is remapped and kept, and the conversion succeeds provided at least one
derived face remaps. -/
theorem dangling_face_skipped (m : MeshInput) (groups : List ElemGroup)
    (fs : List (List Nat)) (coords : List (List Int))
    (hre : reshapeRows 3 m.nodeCoords = some coords)
    (hd : deriveFaces groups = Except.ok fs)
    (hnt : m.nodeTags ≠ [])
    (bad good goodtri : List Nat)
    (hbmem : bad ∈ fs) (hbad : mapFaceOpt (nodeMapLookup m.nodeTags) bad = none)
    (hgmem : good ∈ fs) (hgood : mapFaceOpt (nodeMapLookup m.nodeTags) good = some goodtri) :
    convertCore m groups = Except.ok ⟨coords, remapFaces m.nodeTags fs⟩ ∧
      goodtri ∈ remapFaces m.nodeTags fs ∧
      (remapFaces m.nodeTags fs).length < fs.length := by
  have hmemtri : goodtri ∈ remapFaces m.nodeTags fs := by
    simp only [remapFaces, List.mem_filterMap]
    exact ⟨good, hgmem, hgood⟩
  have hfsne : fs ≠ [] := List.ne_nil_of_mem hgmem
  have htrisne : remapFaces m.nodeTags fs ≠ [] := List.ne_nil_of_mem hmemtri
  exact ⟨convertCore_ok_intro hre hd hfsne hnt htrisne, hmemtri,
    remapFaces_length_lt m.nodeTags fs bad hbmem hbad⟩

/-- Witness for the amended C6: one dangling face next to one valid
face; the conversion succeeds with just the valid triangle. -/
theorem dangling_face_skipped_witness :
    convertCore ⟨[1, 2, 3], List.replicate 9 0⟩ [⟨"Triangle", [1, 2, 9, 1, 2, 3]⟩] =
        Except.ok ⟨List.replicate 3 [0, 0, 0], remapFaces [1, 2, 3] [[1, 2, 9], [1, 2, 3]]⟩ ∧
      [0, 1, 2] ∈ remapFaces [1, 2, 3] [[1, 2, 9], [1, 2, 3]] ∧
      (remapFaces [1, 2, 3] [[1, 2, 9], [1, 2, 3]]).length <
        ([[1, 2, 9], [1, 2, 3]] : List (List Nat)).length :=
  dangling_face_skipped ⟨[1, 2, 3], List.replicate 9 0⟩ [⟨"Triangle", [1, 2, 9, 1, 2, 3]⟩]
    [[1, 2, 9], [1, 2, 3]] (List.replicate 3 [0, 0, 0]) rfl rfl (by decide)
    [1, 2, 9] [1, 2, 3] [0, 1, 2] (by decide) rfl (by decide) rfl

/-- Counterexample to C1 as stated: for the mesh of two tetrahedra
sharing face 123, the direct classification pass already produces 8
faces (the shared face twice), so the fallback is not taken and the
derived face set does not have 7 elements; moreover the fallback
dictionary algorithm itself, run on the same mesh, yields the 6
boundary faces, not 7. -/
theorem two_tets_not_fallback_cex :
    classifyPass [⟨"Tetrahedron", [1, 2, 3, 4, 1, 2, 3, 5]⟩] =
        Except.ok [[1, 2, 3], [1, 2, 4], [1, 3, 4], [2, 3, 4],
          [1, 2, 3], [1, 2, 5], [1, 3, 5], [2, 3, 5]] ∧
      deriveFaces [⟨"Tetrahedron", [1, 2, 3, 4, 1, 2, 3, 5]⟩] =
        Except.ok [[1, 2, 3], [1, 2, 4], [1, 3, 4], [2, 3, 4],
          [1, 2, 3], [1, 2, 5], [1, 3, 5], [2, 3, 5]] ∧
      ([[1, 2, 3], [1, 2, 4], [1, 3, 4], [2, 3, 4],
        [1, 2, 3], [1, 2, 5], [1, 3, 5], [2, 3, 5]] : List (List Nat)).length ≠ 7 ∧
      fallbackPass [⟨"Tetrahedron", [1, 2, 3, 4, 1, 2, 3, 5]⟩] =
        Except.ok [[1, 2, 4], [1, 3, 4], [2, 3, 4], [1, 2, 5], [1, 3, 5], [2, 3, 5]] :=
  ⟨rfl, rfl, by decide, rfl⟩

/-- Claim C1 (amended): a mesh whose single group holds two
tetrahedra is handled by the direct classification pass, which emits
the 4 faces of each tetrahedron (8 faces in all, a shared face
appearing twice); the fallback boundary extraction is not taken. -/
theorem two_tets_direct_path (nm : String) (a b : List Nat)
    (hnm : tetraNames.contains nm = true) (ha : a.length = 4) (hb : b.length = 4) :
    classifyPass [⟨nm, a ++ b⟩] = Except.ok (tetFaces a ++ tetFaces b) ∧
      deriveFaces [⟨nm, a ++ b⟩] = Except.ok (tetFaces a ++ tetFaces b) ∧
      (tetFaces a ++ tetFaces b).length = 8 := by
  have hr : reshapeRows 4 (a ++ b) = some [a, b] := reshapeRows_pair (by decide) ha hb
  have hcg : classifyGroup ⟨nm, a ++ b⟩ = Except.ok ([a, b].flatMap tetFaces) :=
    classifyGroup_tetra hnm hr
  have hflat : ([a, b].flatMap tetFaces) = tetFaces a ++ tetFaces b := by
    simp [List.flatMap_cons]
  rw [hflat] at hcg
  have hcp : classifyPass [⟨nm, a ++ b⟩] = Except.ok (tetFaces a ++ tetFaces b) := by
    have hstep := classifyPass_cons ⟨nm, a ++ b⟩ [] hcg rfl
    simpa using hstep
  refine ⟨hcp, deriveFaces_direct hcp (by simp [tetFaces]), by simp [tetFaces]⟩

/-- Witness for the amended C1 at the concrete two-tetrahedra mesh. -/
theorem two_tets_direct_path_witness :
    classifyPass [⟨tetNameW, [1, 2, 3, 4] ++ [1, 2, 3, 5]⟩] =
        Except.ok (tetFaces [1, 2, 3, 4] ++ tetFaces [1, 2, 3, 5]) ∧
      deriveFaces [⟨tetNameW, [1, 2, 3, 4] ++ [1, 2, 3, 5]⟩] =
        Except.ok (tetFaces [1, 2, 3, 4] ++ tetFaces [1, 2, 3, 5]) ∧
      (tetFaces [1, 2, 3, 4] ++ tetFaces [1, 2, 3, 5]).length = 8 :=
  two_tets_direct_path tetNameW [1, 2, 3, 4] [1, 2, 3, 5] (by decide) rfl rfl

/-- Counterexample to C2 as stated: a mesh with a single hexahedron
and no native surface elements does not yield an empty face set and
does not fail; the direct pass emits its 12 triangles and the
conversion succeeds. -/
theorem hexa_only_succeeds_cex :
    deriveFaces [⟨"Hexahedron", [1, 2, 3, 4, 5, 6, 7, 8]⟩] =
        Except.ok (hexFaces [1, 2, 3, 4, 5, 6, 7, 8]) ∧
      (hexFaces [1, 2, 3, 4, 5, 6, 7, 8]).length = 12 ∧
      convertCore ⟨[1, 2, 3, 4, 5, 6, 7, 8], List.replicate 24 0⟩
          [⟨"Hexahedron", [1, 2, 3, 4, 5, 6, 7, 8]⟩] =
        Except.ok ⟨List.replicate 8 [0, 0, 0],
          [[0, 1, 2], [0, 2, 3], [4, 5, 6], [4, 6, 7], [0, 1, 5], [0, 5, 4],
           [1, 2, 6], [1, 6, 5], [2, 3, 7], [2, 7, 6], [3, 0, 4], [3, 4, 7]]⟩ :=
  ⟨rfl, rfl, rfl⟩

/-- Claim C2 (amended): a mesh whose single group is hexahedral is
handled by the direct classification pass, which emits 12 triangles per
hexahedron; when its node tags are all harvested the conversion
succeeds with 12 times as many triangles as hexahedra, and no
no-surface failure occurs. -/
theorem hexa_direct_success (m : MeshInput) (nm : String) (conn : List Nat)
    (rows : List (List Nat)) (coords : List (List Int))
    (hn : hexaNames.contains nm = true) (ht : tetraNames.contains nm = false)
    (hr : reshapeRows 8 conn = some rows) (hrne : rows ≠ [])
    (hre : reshapeRows 3 m.nodeCoords = some coords)
    (hmem : ∀ t ∈ conn, t ∈ m.nodeTags) :
    convertCore m [⟨nm, conn⟩] =
        Except.ok ⟨coords, remapFaces m.nodeTags (rows.flatMap hexFaces)⟩ ∧
      (remapFaces m.nodeTags (rows.flatMap hexFaces)).length = 12 * rows.length := by
  obtain ⟨-, -, -, hrows8, hrowsmem⟩ := reshapeRows_eq_some hr
  have hcg : classifyGroup ⟨nm, conn⟩ = Except.ok (rows.flatMap hexFaces) :=
    classifyGroup_hexa hn ht hr
  have hcp : classifyPass [⟨nm, conn⟩] = Except.ok (rows.flatMap hexFaces) := by
    have hstep := classifyPass_cons ⟨nm, conn⟩ [] hcg rfl
    simpa using hstep
  have hfacemem : ∀ f ∈ rows.flatMap hexFaces,
      (mapFaceOpt (nodeMapLookup m.nodeTags) f).isSome = true := by
    intro f hf
    rw [List.mem_flatMap] at hf
    obtain ⟨r, hrmem, hface⟩ := hf
    apply mapFaceOpt_isSome
    intro x hx
    apply nodeMapLookup_isSome_of_mem
    exact hmem x (hrowsmem r hrmem x (hexFaces_mem (hrows8 r hrmem) f hface x hx))
  have hlen : (remapFaces m.nodeTags (rows.flatMap hexFaces)).length = 12 * rows.length := by
    rw [remapFaces_length_eq _ _ hfacemem, length_flatMap_const _ hexFaces 12 (fun r => rfl)]
  have hfsne : rows.flatMap hexFaces ≠ [] := by
    cases rows with
    | nil => exact absurd rfl hrne
    | cons r0 rest => simp [List.flatMap_cons, hexFaces]
  have hconnne : conn ≠ [] := by
    intro hc
    subst hc
    rw [show (reshapeRows 8 ([] : List Nat)) = some [] from rfl] at hr
    injection hr with hr2
    exact hrne hr2.symm
  have hnt : m.nodeTags ≠ [] := by
    cases hcn : conn with
    | nil => exact absurd hcn hconnne
    | cons c cs =>
      exact List.ne_nil_of_mem (hmem c (by rw [hcn]; exact List.mem_cons_self c cs))
  have htrisne : remapFaces m.nodeTags (rows.flatMap hexFaces) ≠ [] := by
    intro hempty
    rw [hempty] at hlen
    cases rows with
    | nil => exact absurd rfl hrne
    | cons r0 rest => simp only [List.length_nil, List.length_cons] at hlen; omega
  exact ⟨convertCore_ok_intro hre (deriveFaces_direct hcp (by simpa using hfsne)) hfsne hnt
    htrisne, hlen⟩

/-- Witness for the amended C2 at the concrete one-hexahedron mesh. -/
theorem hexa_direct_success_witness :
    convertCore ⟨[1, 2, 3, 4, 5, 6, 7, 8], List.replicate 24 0⟩
        [⟨hexNameW, [1, 2, 3, 4, 5, 6, 7, 8]⟩] =
      Except.ok ⟨List.replicate 8 [0, 0, 0],
        remapFaces [1, 2, 3, 4, 5, 6, 7, 8] ([[1, 2, 3, 4, 5, 6, 7, 8]].flatMap hexFaces)⟩ ∧
      (remapFaces [1, 2, 3, 4, 5, 6, 7, 8]
        ([[1, 2, 3, 4, 5, 6, 7, 8]].flatMap hexFaces)).length =
        12 * ([[1, 2, 3, 4, 5, 6, 7, 8]] : List (List Nat)).length :=
  hexa_direct_success ⟨[1, 2, 3, 4, 5, 6, 7, 8], List.replicate 24 0⟩ hexNameW
    [1, 2, 3, 4, 5, 6, 7, 8] [[1, 2, 3, 4, 5, 6, 7, 8]] (List.replicate 8 [0, 0, 0])
    (by decide) (by decide) rfl (by decide) rfl (by decide)

/-- Counterexample to C3 as stated: when `gmsh.initialize` fails (a step
executed after the temporary file is written at source line 21 but
before the `try` block begins at line 28), the call raises and the
temporary file still exists afterwards, because the `finally` cleanup
never runs. -/
theorem tmp_file_leak_cex :
    (convert_to_stl_with_gmsh ⟨true, true, false, false, true, true⟩ ⟨[], []⟩ []).raised = true ∧
      (convert_to_stl_with_gmsh ⟨true, true, false, false, true, true⟩ ⟨[], []⟩ []).tmpAfter
        = true :=
  ⟨rfl, rfl⟩

/-- Claim C3 (amended): the temporary file is absent after the call
whenever the failure, if any, happens either before the file is created
(read failure) or anywhere from the `try` block onward; only a failure
in the window between the temporary write and the `try` block (the
temporary write itself, or engine initialization) can leave it
behind. -/
theorem tmp_cleanup_inside_try (io : ExtIO) (m : MeshInput) (groups : List ElemGroup)
    (h : io.readOk = false ∨ (io.writeTmpOk = true ∧ io.initOk = true)) :
    (convert_to_stl_with_gmsh io m groups).tmpAfter = false := by
  unfold convert_to_stl_with_gmsh
  by_cases hrd : io.readOk = false
  · rw [if_pos hrd]
  · rw [if_neg hrd]
    rcases h with h | ⟨h1, h2⟩
    · exact absurd h hrd
    · rw [if_neg (by simp [h1]), if_neg (by simp [h2])]
      by_cases ho : io.openOk = false
      · rw [if_pos ho]
      · rw [if_neg ho]
        cases hcc : convertCore m groups with
        | error e => rfl
        | ok out =>
          dsimp only
          by_cases hw : io.writeStlOk = false
          · rw [if_pos hw]
          · rw [if_neg hw]

/-- Witness for the amended C3: a read failure leaves no file behind. -/
theorem tmp_cleanup_inside_try_witness :
    (convert_to_stl_with_gmsh ⟨false, true, true, true, true, true⟩ ⟨[], []⟩ []).tmpAfter
      = false :=
  tmp_cleanup_inside_try ⟨false, true, true, true, true, true⟩ ⟨[], []⟩ [] (Or.inl rfl)

end MeshToStl
